import Mathlib

/-!
Verification development for the Silent Protocol monitoring bot
(src/api/index.py). The Python source is shallowly embedded: pure
string/list manipulation becomes Lean functions on `String`/`List`, the
two module-level dictionaries (`user_tokens`, `monitoring_tasks`) become
fields of a `BotState` record, and the asynchronous polling loop
`monitor_token` becomes a fuel-indexed run function driven by a stream of
per-iteration environment events (results of the two remote calls,
outcome of the outbound send, injected cancellation or other exception).
-/

/-- Whitespace characters stripped by Python str.strip (the ASCII ones). -/
def pyIsSpace (c : Char) : Bool :=
  c = ' ' || c = '\t' || c = '\n' || c = '\r' || c = '\x0b' || c = '\x0c'

/-- Strip leading and trailing whitespace from a character list. -/
def pyStripChars (cs : List Char) : List Char :=
  ((cs.dropWhile pyIsSpace).reverse.dropWhile pyIsSpace).reverse

/-- Python str.strip on a string. -/
def pyStrip (s : String) : String :=
  String.mk (pyStripChars s.data)

/-- Python str.split with separator a single newline: keeps empty pieces,
returns one (possibly empty) piece even for the empty string. -/
def pySplitNlChars : List Char → List (List Char)
  | [] => [[]]
  | c :: cs =>
      match pySplitNlChars cs with
      | [] => [[]]
      | l :: ls => if c = '\n' then [] :: l :: ls else (c :: l) :: ls

/-- text.split of the source, newline separator, as strings. -/
def pySplitNl (s : String) : List String :=
  (pySplitNlChars s.data).map String.mk

/-- format_token (src/api/index.py line 50-51):
returns "..." followed by the last six characters when the token is longer
than six characters, and the token itself otherwise. -/
def format_token (token : String) : String :=
  if token.data.length > 6 then
    "..." ++ String.mk (token.data.drop (token.data.length - 6))
  else
    token

/-- A parsed JSON body, modelled as a flat string-keyed record; values are
kept in their displayed (string) form since the source only ever
interpolates them into messages. -/
structure Dict where
  entries : List (String × String)
deriving DecidableEq

/-- Python dict.get with a default. -/
def Dict.getD (d : Dict) (k dflt : String) : String :=
  match d.entries.find? (fun p => p.1 == k) with
  | some p => p.2
  | none => dflt

/-- The observable outcome of one HTTP GET against the remote status API:
either the request raised (connection error, timeout, or a 200 body that
failed to parse as JSON — all land in the except-clause of the source), or
a response arrived with a status code and, when the body parsed, its
parsed form. A 200 whose body fails to parse is `response 200 none`. -/
inductive HttpOutcome where
  | transportError (msg : String)
  | response (status : Nat) (body : Option Dict)
deriving DecidableEq

/-- get_position (src/api/index.py lines 65-82): returns the parsed body
on HTTP 200, None on any other status, and None when the request or the
body parse raised. Total: never raises past its boundary. -/
def get_position (r : HttpOutcome) : Option Dict :=
  match r with
  | .transportError _ => none
  | .response status body => if status = 200 then body else none

/-- ping_server (src/api/index.py lines 85-101): same contract as
get_position against the ping endpoint. -/
def ping_server (r : HttpOutcome) : Option Dict :=
  match r with
  | .transportError _ => none
  | .response status body => if status = 200 then body else none

/-- Token parsing in process_tokens (src/api/index.py line 266):
the stripped non-empty lines of the submitted text, in order. -/
def parse_tokens (text : String) : List String :=
  ((pySplitNl text).map pyStrip).filter (fun t => t != "")

/-- process_tokens (src/api/index.py lines 263-276) acting on the
submitting user's registry list (user_tokens[user_id], default empty):
returns the updated list and the reply text. -/
def process_tokens (reg : List String) (text : String) : List String × String :=
  let tokens := parse_tokens text
  if tokens = [] then
    (reg, "❌ No valid tokens found.")
  else
    (reg ++ tokens,
     "✅ Added " ++ toString tokens.length ++ " tokens\nTotal: "
       ++ toString (reg ++ tokens).length)

/-- A message pushed through the notification sink to a user. -/
structure Msg where
  user : Nat
  text : String
deriving DecidableEq

/-- The ping field of the status line: the status field of the parsed
ping body (default N/A) or Error when the result is absent. -/
def pingField (ping : Option Dict) : String :=
  match ping with
  | some d => d.getD ("status") ("N/A")
  | none => "Error"

/-- The position field of the status line: the behind field of the parsed
position body (default N/A) or Error when the result is absent. -/
def posField (pos : Option Dict) : String :=
  match pos with
  | some d => d.getD ("behind") ("N/A")
  | none => "Error"

/-- The full message text sent each iteration of monitor_token
(src/api/index.py lines 111-119). -/
def statusUpdateText (token : String) (ping pos : Option Dict) : String :=
  "🔄 Status Update:\n• *" ++ format_token token ++ "*:\n  Status: `"
    ++ pingField ping ++ "`\n  Position: `" ++ posField pos ++ "`"

/-- The names bound at module scope of src/api/index.py by its import
statements (lines 1-13). Note that traceback is not among them, although
line 124 references it. -/
def moduleImports : List String :=
  ["os", "asyncio", "logging", "time", "Dict", "List", "Optional", "Any",
   "web", "aiohttp", "telegram", "InlineKeyboardButton",
   "InlineKeyboardMarkup", "Update", "Application", "CallbackQueryHandler",
   "CommandHandler", "ContextTypes", "ConversationHandler",
   "MessageHandler", "filters"]

/-- How a polling loop's coroutine can finish. -/
inductive LoopExit where
  | cancelledSilent
  | crashNotified
  | handlerError (e : String)
deriving DecidableEq

/-- The except-Exception handler of monitor_token (src/api/index.py lines
123-128). Its first statement interpolates traceback.format_exc into a
log line; evaluating the global name traceback raises NameError when it is
unbound, in which case the crash notification of lines 125-128 is never
sent and the coroutine ends with the NameError. -/
def exceptExceptionHandler (u : Nat) (token : String) : List Msg × LoopExit :=
  if moduleImports.contains ("traceback") then
    ([⟨u, "❌ Monitoring crashed for " ++ format_token token
           ++ " - restart required"⟩],
     .crashNotified)
  else
    ([], .handlerError ("NameError: name traceback is not defined"))

/-- What the environment does to one iteration of a polling loop:
`ok` — both remote calls returned (each an optional parsed body, per the
get_position / ping_server contract) and the outbound send succeeded;
`sendFail` — the calls returned but bot.send_message raised;
`cancel` — a CancelledError was delivered at an await point;
`raised` — some other exception was raised inside the iteration. -/
inductive IterEvent where
  | ok (ping : Option Dict) (pos : Option Dict)
  | sendFail (ping : Option Dict) (pos : Option Dict) (err : String)
  | cancel
  | raised (err : String)
deriving DecidableEq

/-- One iteration of monitor_token (src/api/index.py lines 104-128):
returns the messages successfully delivered during the iteration and,
when the coroutine finishes, how. A CancelledError is caught by the first
except clause and is silent; any other exception reaches the
except-Exception handler. -/
def monitor_token_step (u : Nat) (token : String) (ev : IterEvent) :
    List Msg × Option LoopExit :=
  match ev with
  | .ok ping pos => ([⟨u, statusUpdateText token ping pos⟩], none)
  | .sendFail _ _ _ =>
      let r := exceptExceptionHandler u token
      (r.1, some r.2)
  | .cancel => ([], some .cancelledSilent)
  | .raised _ =>
      let r := exceptExceptionHandler u token
      (r.1, some r.2)

/-- Observable state of one polling loop after some number of iterations:
messages delivered so far, and whether (and how) the coroutine finished. -/
structure LoopState where
  sentMsgs : List Msg
  outcome : Option LoopExit
deriving DecidableEq

/-- Run monitor_token for a given number of iterations against an
environment stream. Once the coroutine has finished it stays finished. -/
def monitor_token_run (u : Nat) (token : String) (env : Nat → IterEvent) :
    Nat → LoopState
  | 0 => ⟨[], none⟩
  | n + 1 =>
      let s := monitor_token_run u token env n
      match s.outcome with
      | some _ => s
      | none =>
          let r := monitor_token_step u token (env n)
          ⟨s.sentMsgs ++ r.1, r.2⟩

/-- One asyncio task spawned by start_monitoring: the token it polls and
whether its coroutine is still live. -/
structure MonitorTask where
  token : String
  live : Bool
deriving DecidableEq

/-- The two module-level dictionaries of src/api/index.py (lines 27-28):
user_tokens (read through .get with default empty, so modelled total) and
monitoring_tasks (membership is significant, so modelled optional). -/
structure BotState where
  user_tokens : Nat → List String
  monitoring_tasks : Nat → Option (List MonitorTask)

/-- Number of monitor handles currently recorded for a user. -/
def activeHandles (s : BotState) (u : Nat) : Nat :=
  ((s.monitoring_tasks u).getD []).length

/-- start_monitoring (src/api/index.py lines 296-308): if the user is in
monitoring_tasks, reply already-running and change nothing; otherwise
snapshot user_tokens.get(user_id, []), spawn one task per token in order,
record them, and reply started. -/
def start_monitoring (s : BotState) (u : Nat) : BotState × String :=
  match s.monitoring_tasks u with
  | some _ => (s, "🔔 Monitoring already running")
  | none =>
      let tasks := (s.user_tokens u).map (fun t => MonitorTask.mk t true)
      ({ s with monitoring_tasks :=
           fun v => if v = u then some tasks else s.monitoring_tasks v },
       "🚀 Started continuous monitoring for all tokens")

/-- stop_monitoring (src/api/index.py lines 311-318): if the user is in
monitoring_tasks, cancel each recorded task, delete the entry and reply
stopped; otherwise reply no-active-monitoring and change nothing. The
third component lists the handles that received a cancel call. -/
def stop_monitoring (s : BotState) (u : Nat) :
    BotState × String × List MonitorTask :=
  match s.monitoring_tasks u with
  | some ts =>
      ({ s with monitoring_tasks :=
           fun v => if v = u then none else s.monitoring_tasks v },
       "🛑 Stopped monitoring", ts)
  | none => (s, "❌ No active monitoring", [])

/-- Mark the i-th task of a list as no longer live. -/
def markDead : List MonitorTask → Nat → List MonitorTask
  | [], _ => []
  | t :: ts, 0 => ⟨t.token, false⟩ :: ts
  | t :: ts, n + 1 => t :: markDead ts n

/-- The i-th polling loop of user u terminates (crash or cancellation).
monitor_token (src/api/index.py lines 104-128) never reads or writes
monitoring_tasks, so the only state change is the task's own liveness. -/
def loop_terminates (s : BotState) (u : Nat) (i : Nat) : BotState :=
  { s with monitoring_tasks :=
      fun v => if v = u then (s.monitoring_tasks u).map (fun ts => markDead ts i)
               else s.monitoring_tasks v }

/-- A sequence of loop-termination events applied in order. -/
def runLoopExits (s : BotState) (evs : List (Nat × Nat)) : BotState :=
  List.foldl (fun st e => loop_terminates st e.1 e.2) s evs

/-! Concrete states used by the witnesses. -/

def sampleTasks : List MonitorTask :=
  [⟨"aaaaaaaaaa1111", true⟩, ⟨"bbbbbbbbbb2222", true⟩]

def sampleRunning : BotState :=
  { user_tokens := fun v => if v = 7 then ["aaaaaaaaaa1111", "bbbbbbbbbb2222"] else []
  , monitoring_tasks := fun v => if v = 7 then some sampleTasks else none }

def sampleIdle : BotState :=
  { user_tokens := fun v => if v = 7 then ["aaaaaaaaaa1111", "bbbbbbbbbb2222"] else []
  , monitoring_tasks := fun _ => none }

/-- Claim C3: each remote-status operation returns a present parsed body
exactly on an HTTP 200 response with a parseable body (and then returns
that parsed body), and an absent result on a non-200 status, a transport
failure, or a parse failure; both are total functions, so neither raises
past its own boundary. -/
theorem C3_remote_client_optional_contract (r q : HttpOutcome) :
    ((get_position r).isSome ↔ ∃ d, r = HttpOutcome.response 200 (some d)) ∧
    ((ping_server q).isSome ↔ ∃ d, q = HttpOutcome.response 200 (some d)) ∧
    (∀ d, get_position (HttpOutcome.response 200 (some d)) = some d) ∧
    (∀ d, ping_server (HttpOutcome.response 200 (some d)) = some d) := by
  refine ⟨?_, ?_, fun d => rfl, fun d => rfl⟩
  · cases r with
    | transportError m => simp [get_position]
    | response st b =>
        by_cases hst : st = 200
        · subst hst
          cases b <;> simp [get_position]
        · simp [get_position, hst]
  · cases q with
    | transportError m => simp [ping_server]
    | response st b =>
        by_cases hst : st = 200
        · subst hst
          cases b <;> simp [ping_server]
        · simp [ping_server, hst]

/-- Claim C8, counterexample: a token of six or fewer characters is
displayed as itself — the full credential — not as an ellipsis followed
by its last six characters. -/
theorem C8_counterexample_short_token_shown_in_full :
    format_token ("abc") = "abc" ∧ format_token ("abc") ≠ "..." ++ "abc" := by
  decide

/-- Claim C8 as amended: for tokens longer than six characters the
redacted form is an ellipsis followed by the token's last six characters;
tokens of six or fewer characters are displayed in full, unredacted. -/
theorem C8_amended_redaction (t : String) (h : 6 < t.data.length) :
    (format_token t).data
      = '.' :: '.' :: '.' :: t.data.drop (t.data.length - 6) ∧
    (t.data.drop (t.data.length - 6)).length = 6 ∧
    (∀ s : String, s.data.length ≤ 6 → format_token s = s) := by
  refine ⟨?_, ?_, ?_⟩
  · show (format_token t).data = _
    rw [format_token, if_pos h]
    rfl
  · rw [List.length_drop]
    omega
  · intro s hs
    rw [format_token, if_neg (by omega)]

theorem C8_amended_redaction_witness :
    6 < ("aaaaaaaaaa1111" : String).data.length ∧
    ((format_token ("aaaaaaaaaa1111")).data
        = '.' :: '.' :: '.'
            :: ("aaaaaaaaaa1111" : String).data.drop
                 (("aaaaaaaaaa1111" : String).data.length - 6) ∧
     (("aaaaaaaaaa1111" : String).data.drop
         (("aaaaaaaaaa1111" : String).data.length - 6)).length = 6 ∧
     (∀ s : String, s.data.length ≤ 6 → format_token s = s)) :=
  ⟨by decide, C8_amended_redaction ("aaaaaaaaaa1111") (by decide)⟩

/-- Claim C7: a submission with at least one non-empty trimmed line
appends exactly the non-empty whitespace-trimmed lines, in submission
order, after the pre-existing entries, and the reply reports the new
total count; a submission with no non-empty line is rejected with the
no-valid-tokens reply and leaves the registry unchanged. -/
theorem C7_add_appends_trimmed_lines (reg : List String) (text : String)
    (h : parse_tokens text ≠ []) :
    (process_tokens reg text).1 = reg ++ parse_tokens text ∧
    (process_tokens reg text).2
      = "✅ Added " ++ toString (parse_tokens text).length
          ++ " tokens\nTotal: "
          ++ toString (reg.length + (parse_tokens text).length) ∧
    parse_tokens text
      = ((pySplitNl text).map pyStrip).filter (fun t => t != "") ∧
    (∀ t2 : String, parse_tokens t2 = [] →
        process_tokens reg t2 = (reg, "❌ No valid tokens found.")) := by
  refine ⟨?_, ?_, rfl, ?_⟩
  · simp [process_tokens, h]
  · simp [process_tokens, h, List.length_append]
  · intro t2 h2
    simp [process_tokens, h2]

theorem C7_add_appends_trimmed_lines_witness :
    parse_tokens ("  tok1  \n\n tok2\n") ≠ [] ∧
    ((process_tokens ["oldtok"] ("  tok1  \n\n tok2\n")).1
        = ["oldtok"] ++ parse_tokens ("  tok1  \n\n tok2\n") ∧
     (process_tokens ["oldtok"] ("  tok1  \n\n tok2\n")).2
        = "✅ Added " ++ toString (parse_tokens ("  tok1  \n\n tok2\n")).length
            ++ " tokens\nTotal: "
            ++ toString (["oldtok"].length
                 + (parse_tokens ("  tok1  \n\n tok2\n")).length) ∧
     parse_tokens ("  tok1  \n\n tok2\n")
        = ((pySplitNl ("  tok1  \n\n tok2\n")).map pyStrip).filter
            (fun t => t != "") ∧
     (∀ t2 : String, parse_tokens t2 = [] →
         process_tokens ["oldtok"] t2
           = (["oldtok"], "❌ No valid tokens found."))) :=
  ⟨by decide, C7_add_appends_trimmed_lines ["oldtok"] ("  tok1  \n\n tok2\n")
      (by decide)⟩

/-- Claim C5: a second start_monitoring with no intervening stop leaves
the state (hence the set of handles) unchanged and reports
already-running, spawning no additional polling loops. -/
theorem C5_start_monitoring_idempotent (s : BotState) (u : Nat) :
    (start_monitoring (start_monitoring s u).1 u).1 = (start_monitoring s u).1 ∧
    (start_monitoring (start_monitoring s u).1 u).2
      = "🔔 Monitoring already running" := by
  cases h : s.monitoring_tasks u with
  | some ts => simp [start_monitoring, h]
  | none => simp [start_monitoring, h]

/-- Claim C4: stop_monitoring on a user with an active session cancels
exactly the session's handles, leaves zero active handles, and replies
stopped; a repeated stop (and any stop with no active session) replies
no-active-monitoring and changes nothing. -/
theorem C4_stop_monitoring_clears_all (s : BotState) (u : Nat)
    (ts : List MonitorTask) (h : s.monitoring_tasks u = some ts) :
    (stop_monitoring s u).1.monitoring_tasks u = none ∧
    activeHandles (stop_monitoring s u).1 u = 0 ∧
    (stop_monitoring s u).2.1 = "🛑 Stopped monitoring" ∧
    (stop_monitoring s u).2.2 = ts ∧
    (stop_monitoring (stop_monitoring s u).1 u).1 = (stop_monitoring s u).1 ∧
    (stop_monitoring (stop_monitoring s u).1 u).2.1
      = "❌ No active monitoring" ∧
    (∀ s2 : BotState, s2.monitoring_tasks u = none →
        stop_monitoring s2 u = (s2, "❌ No active monitoring", [])) := by
  refine ⟨?_, ?_, ?_, ?_, ?_, ?_, ?_⟩
  · simp [stop_monitoring, h]
  · simp [stop_monitoring, activeHandles, h]
  · simp [stop_monitoring, h]
  · simp [stop_monitoring, h]
  · simp [stop_monitoring, h]
  · simp [stop_monitoring, h]
  · intro s2 h2
    simp [stop_monitoring, h2]

theorem C4_stop_monitoring_clears_all_witness :
    sampleRunning.monitoring_tasks 7 = some sampleTasks ∧
    ((stop_monitoring sampleRunning 7).1.monitoring_tasks 7 = none ∧
     activeHandles (stop_monitoring sampleRunning 7).1 7 = 0 ∧
     (stop_monitoring sampleRunning 7).2.1 = "🛑 Stopped monitoring" ∧
     (stop_monitoring sampleRunning 7).2.2 = sampleTasks ∧
     (stop_monitoring (stop_monitoring sampleRunning 7).1 7).1
        = (stop_monitoring sampleRunning 7).1 ∧
     (stop_monitoring (stop_monitoring sampleRunning 7).1 7).2.1
        = "❌ No active monitoring" ∧
     (∀ s2 : BotState, s2.monitoring_tasks 7 = none →
         stop_monitoring s2 7 = (s2, "❌ No active monitoring", []))) :=
  ⟨rfl, C4_stop_monitoring_clears_all sampleRunning 7 sampleTasks rfl⟩

/-- Claim C6: start_monitoring on a user with no active session snapshots
the user's token sequence and records exactly one live handle per token in
registry order (duplicates included, so the handle count equals the
registry length), touches no other user's session, replies started, and
in particular succeeds silently with zero handles for a zero-token user. -/
theorem C6_start_monitoring_snapshots_registry (s : BotState) (u : Nat)
    (h : s.monitoring_tasks u = none) :
    (start_monitoring s u).1.monitoring_tasks u
      = some ((s.user_tokens u).map (fun t => MonitorTask.mk t true)) ∧
    activeHandles (start_monitoring s u).1 u = (s.user_tokens u).length ∧
    (∀ v, v ≠ u →
        (start_monitoring s u).1.monitoring_tasks v = s.monitoring_tasks v) ∧
    (start_monitoring s u).2 = "🚀 Started continuous monitoring for all tokens" ∧
    (s.user_tokens u = [] →
        (start_monitoring s u).1.monitoring_tasks u = some []) := by
  refine ⟨?_, ?_, ?_, ?_, ?_⟩
  · simp [start_monitoring, h]
  · simp [start_monitoring, activeHandles, h]
  · intro v hv
    simp [start_monitoring, h, hv]
  · simp [start_monitoring, h]
  · intro h0
    simp [start_monitoring, h, h0]

theorem C6_start_monitoring_snapshots_registry_witness :
    sampleIdle.monitoring_tasks 7 = none ∧
    ((start_monitoring sampleIdle 7).1.monitoring_tasks 7
        = some ((sampleIdle.user_tokens 7).map (fun t => MonitorTask.mk t true)) ∧
     activeHandles (start_monitoring sampleIdle 7).1 7
        = (sampleIdle.user_tokens 7).length ∧
     (∀ v, v ≠ 7 →
         (start_monitoring sampleIdle 7).1.monitoring_tasks v
           = sampleIdle.monitoring_tasks v) ∧
     (start_monitoring sampleIdle 7).2
        = "🚀 Started continuous monitoring for all tokens" ∧
     (sampleIdle.user_tokens 7 = [] →
         (start_monitoring sampleIdle 7).1.monitoring_tasks 7 = some [])) :=
  ⟨rfl, C6_start_monitoring_snapshots_registry sampleIdle 7 rfl⟩

lemma loop_terminates_isSome (s : BotState) (u i v : Nat) :
    ((loop_terminates s u i).monitoring_tasks v).isSome
      = (s.monitoring_tasks v).isSome := by
  by_cases hv : v = u
  · subst hv
    simp [loop_terminates]
  · simp [loop_terminates, hv]

lemma runLoopExits_isSome (evs : List (Nat × Nat)) (s : BotState) (v : Nat) :
    ((runLoopExits s evs).monitoring_tasks v).isSome
      = (s.monitoring_tasks v).isSome := by
  induction evs generalizing s with
  | nil => rfl
  | cons e rest ih =>
      show ((runLoopExits (loop_terminates s e.1 e.2) rest).monitoring_tasks v).isSome = _
      rw [ih, loop_terminates_isSome]

/-- Claim C10: polling-loop terminations (crash or cancellation) never
change membership in monitoring_tasks — only start_monitoring and
stop_monitoring do — so after any sequence of loop deaths a user whose
session existed still gets already-running from start_monitoring and a
successful stop from stop_monitoring. -/
theorem C10_session_membership_survives_loop_deaths (s : BotState)
    (evs : List (Nat × Nat)) (u v : Nat)
    (h : (s.monitoring_tasks u).isSome) :
    ((runLoopExits s evs).monitoring_tasks v).isSome
      = (s.monitoring_tasks v).isSome ∧
    (start_monitoring (runLoopExits s evs) u).1 = runLoopExits s evs ∧
    (start_monitoring (runLoopExits s evs) u).2
      = "🔔 Monitoring already running" ∧
    (stop_monitoring (runLoopExits s evs) u).2.1 = "🛑 Stopped monitoring" ∧
    activeHandles (stop_monitoring (runLoopExits s evs) u).1 u = 0 := by
  have hm : ((runLoopExits s evs).monitoring_tasks u).isSome = true := by
    rw [runLoopExits_isSome]
    exact h
  obtain ⟨ts, hts⟩ := Option.isSome_iff_exists.mp hm
  refine ⟨runLoopExits_isSome evs s v, ?_, ?_, ?_, ?_⟩
  · simp [start_monitoring, hts]
  · simp [start_monitoring, hts]
  · simp [stop_monitoring, hts]
  · simp [stop_monitoring, activeHandles, hts]

theorem C10_session_membership_survives_loop_deaths_witness :
    (sampleRunning.monitoring_tasks 7).isSome = true ∧
    (((runLoopExits sampleRunning [(7, 0), (7, 1)]).monitoring_tasks 3).isSome
        = (sampleRunning.monitoring_tasks 3).isSome ∧
     (start_monitoring (runLoopExits sampleRunning [(7, 0), (7, 1)]) 7).1
        = runLoopExits sampleRunning [(7, 0), (7, 1)] ∧
     (start_monitoring (runLoopExits sampleRunning [(7, 0), (7, 1)]) 7).2
        = "🔔 Monitoring already running" ∧
     (stop_monitoring (runLoopExits sampleRunning [(7, 0), (7, 1)]) 7).2.1
        = "🛑 Stopped monitoring" ∧
     activeHandles
        (stop_monitoring (runLoopExits sampleRunning [(7, 0), (7, 1)]) 7).1 7
        = 0) :=
  ⟨rfl, C10_session_membership_survives_loop_deaths sampleRunning
      [(7, 0), (7, 1)] 7 3 rfl⟩

lemma exceptExceptionHandler_eq (u : Nat) (token : String) :
    exceptExceptionHandler u token
      = ([], LoopExit.handlerError ("NameError: name traceback is not defined")) :=
  rfl

/-- Claim C1, evaluated at a failing input: when an iteration raises an
unexpected non-network exception, the except-Exception handler evaluates
the unbound global name traceback, raises NameError, and the loop
terminates with ZERO crashed-restart-required notifications sent — not
the one the claim requires. -/
theorem C1_crash_notification_never_sent :
    (monitor_token_run 1 ("aaaaaaaaaa1111")
        (fun _ => IterEvent.raised ("RuntimeError")) 1).outcome
      = some (LoopExit.handlerError ("NameError: name traceback is not defined")) ∧
    (monitor_token_run 1 ("aaaaaaaaaa1111")
        (fun _ => IterEvent.raised ("RuntimeError")) 1).sentMsgs = [] ∧
    moduleImports.contains ("traceback") = false := by
  decide

/-- Environment used to refute claim C2: the very first iteration's
outbound send is rejected by the chat platform; afterwards the remote
calls would keep answering. -/
def c2Env : Nat → IterEvent :=
  fun i => if i = 0 then IterEvent.sendFail none none ("Forbidden: bot blocked by user")
           else IterEvent.ok none none

/-- Claim C2, counterexample: after the chat platform rejects the send of
iteration 0, the loop has terminated by iteration budget 3 — it did not
continue to its next iteration and delivered nothing further. -/
theorem C2_counterexample_send_failure_stops_loop :
    (monitor_token_run 5 ("bbbbbbbbbb2222") c2Env 3).outcome
      = some (LoopExit.handlerError ("NameError: name traceback is not defined")) ∧
    (monitor_token_run 5 ("bbbbbbbbbb2222") c2Env 3).sentMsgs = [] := by
  decide

/-- Claim C2 as amended: when the notification send of an iteration fails,
the exception propagates to the loop's generic except-Exception handler
and the loop terminates (the handler itself then raises NameError on the
unimported traceback module); the loop does not continue to its next
iteration and delivers nothing further. -/
theorem C2_amended_send_failure_kills_loop (u : Nat) (token : String)
    (env : Nat → IterEvent) (n : Nat)
    (hrun : (monitor_token_run u token env n).outcome = none)
    (p q : Option Dict) (e : String)
    (hev : env n = IterEvent.sendFail p q e) :
    (monitor_token_run u token env (n + 1)).outcome
      = some (LoopExit.handlerError ("NameError: name traceback is not defined")) ∧
    (monitor_token_run u token env (n + 1)).sentMsgs
      = (monitor_token_run u token env n).sentMsgs := by
  constructor <;>
    simp [monitor_token_run, hrun, hev, monitor_token_step,
          exceptExceptionHandler_eq]

theorem C2_amended_send_failure_kills_loop_witness :
    (monitor_token_run 5 ("bbbbbbbbbb2222") c2Env 0).outcome = none ∧
    c2Env 0 = IterEvent.sendFail none none ("Forbidden: bot blocked by user") ∧
    ((monitor_token_run 5 ("bbbbbbbbbb2222") c2Env (0 + 1)).outcome
        = some (LoopExit.handlerError ("NameError: name traceback is not defined")) ∧
     (monitor_token_run 5 ("bbbbbbbbbb2222") c2Env (0 + 1)).sentMsgs
        = (monitor_token_run 5 ("bbbbbbbbbb2222") c2Env 0).sentMsgs) :=
  ⟨rfl, rfl,
   C2_amended_send_failure_kills_loop 5 ("bbbbbbbbbb2222") c2Env 0 rfl
     none none ("Forbidden: bot blocked by user") rfl⟩

lemma replicate_snoc (n : Nat) (a : Msg) :
    List.replicate n a ++ [a] = List.replicate (n + 1) a := by
  induction n with
  | zero => rfl
  | succ k ih => simp [List.replicate_succ, List.cons_append, ih]

/-- Claim C9: a polling loop whose two remote calls always return absent
results delivers, on every iteration, the status line whose ping field and
position field both read Error, and after any number of iterations it has
not terminated on its own. -/
theorem C9_absent_results_error_line_forever (u : Nat) (token : String)
    (n : Nat) :
    (monitor_token_run u token (fun _ => IterEvent.ok none none) n).outcome
      = none ∧
    (monitor_token_run u token (fun _ => IterEvent.ok none none) n).sentMsgs
      = List.replicate n ⟨u, statusUpdateText token none none⟩ ∧
    pingField none = "Error" ∧ posField none = "Error" := by
  have key : ∀ m,
      (monitor_token_run u token (fun _ => IterEvent.ok none none) m).outcome
        = none ∧
      (monitor_token_run u token (fun _ => IterEvent.ok none none) m).sentMsgs
        = List.replicate m ⟨u, statusUpdateText token none none⟩ := by
    intro m
    induction m with
    | zero => exact ⟨rfl, rfl⟩
    | succ k ih =>
        obtain ⟨h1, h2⟩ := ih
        constructor
        · simp [monitor_token_run, h1, monitor_token_step]
        · simp [monitor_token_run, h1, h2, monitor_token_step, replicate_snoc]
  exact ⟨(key n).1, (key n).2, rfl, rfl⟩
